import Mathlib

/-!
Verification of the `friday` room-summarization worker.

Shallow embedding of the core code paths:
 - `core/services/matrix.py` (message fetching and filtering),
 - `core/services/llm.py` (LLM result parsing and task reconciliation),
 - `core/models/subscriber.py` (room-code generation),
 - `core/management/commands/summarize_rooms.py` (command router,
   cooldown gate, per-subscriber / per-room orchestration loop).

Machine integers are modelled as `Nat`/`Int`; timestamps are integer
microseconds or seconds; external I/O (HTTP pages, LLM completions) is
passed in explicitly as data or oracle functions.
-/

namespace Friday

/-! ## Matrix message fetching (`MatrixService.fetch_room_messages`,
    `RoomService.get_messages`) -/

/-- One raw event of a Matrix `/messages` response `chunk`.
`originServerTs` is `origin_server_ts` in milliseconds. -/
structure MatrixEvent where
  type : String
  sender : String
  body : String
  msgtype : String
  originServerTs : Nat
  eventId : String
deriving Repr, DecidableEq

/-- The dict appended per kept event. `timestampUs` stands for the
`event_time` datetime (`datetime.fromtimestamp(origin_server_ts / 1000)`),
represented exactly in integer microseconds. -/
structure FetchedMessage where
  sender : String
  body : String
  msgtype : String
  timestampUs : Nat
  eventId : String
deriving Repr, DecidableEq

def toFetchedMessage (e : MatrixEvent) : FetchedMessage :=
  { sender := e.sender, body := e.body, msgtype := e.msgtype,
    timestampUs := e.originServerTs * 1000, eventId := e.eventId }

/-- The per-event keep condition of the fetch loop: only `m.room.message`
events, and when `from_timestamp` is provided, skip events with
`event_time <= from_timestamp` (`fromTs` in microseconds). -/
def keepEvent (fromTs : Option Nat) (e : MatrixEvent) : Bool :=
  (e.type == "m.room.message") &&
    (match fromTs with
     | some t => decide (t < e.originServerTs * 1000)
     | none => true)

/-- `MatrixService.fetch_room_messages` applied to the single response
chunk the code requests (`dir="b"`): filter, then reverse to
chronological order. -/
def fetchRoomMessages (fromTs : Option Nat) (chunk : List MatrixEvent) :
    List FetchedMessage :=
  ((chunk.filter (keepEvent fromTs)).map toFetchedMessage).reverse

/-- Result dict of `RoomService.get_messages`. -/
structure GetMessagesResult where
  roomId : String
  roomName : String
  messages : List FetchedMessage
  total : Nat
deriving Repr, DecidableEq

/-- `RoomService.get_messages`: same single-request filter/reverse logic
against the Synapse admin messages endpoint. -/
def getMessages (roomId roomName : String) (fromTs : Option Nat)
    (chunk : List MatrixEvent) : GetMessagesResult :=
  let msgs := ((chunk.filter (keepEvent fromTs)).map toFetchedMessage).reverse
  { roomId := roomId, roomName := roomName, messages := msgs,
    total := msgs.length }

/-- The transport's backward pagination: successive pages of events,
page 0 being the most recent. The code sends one GET without ever
passing the returned continuation token, so it only sees page 0. -/
def fetchRoomMessagesPaged (fromTs : Option Nat)
    (pages : List (List MatrixEvent)) : List FetchedMessage :=
  fetchRoomMessages fromTs (pages.headD [])

/-- Modelled from the spec's words (§4.1/§6): the fetch drains every
page via the continuation cursor until exhausted, then filters and
orders. Used only to exhibit the divergence of the code from the spec. -/
def specDrainedFetch (fromTs : Option Nat)
    (pages : List (List MatrixEvent)) : List FetchedMessage :=
  fetchRoomMessages fromTs pages.flatten

/-! ### Theorems for C8 and C4 -/

theorem keepEvent_lt (T : Nat) (e : MatrixEvent)
    (h : keepEvent (some T) e = true) : T < e.originServerTs * 1000 := by
  unfold keepEvent at h
  simp only [Bool.and_eq_true, decide_eq_true_eq] at h
  exact h.2

/-- C8: with `from_timestamp = T`, the fetch never returns a message
with timestamp at or before `T`, and — given the transport delivers the
backward page in reverse-chronological (non-increasing timestamp)
order — the returned sequence has non-decreasing timestamps (oldest
first).  `RoomService.get_messages` exposes the same filtered list. -/
theorem fetch_messages_filter_and_order (T : Nat) (chunk : List MatrixEvent)
    (hsorted : chunk.Pairwise
      (fun a b => b.originServerTs ≤ a.originServerTs)) :
    (∀ m ∈ fetchRoomMessages (some T) chunk, T < m.timestampUs) ∧
    (fetchRoomMessages (some T) chunk).Pairwise
      (fun a b => a.timestampUs ≤ b.timestampUs) ∧
    (∀ rid rn, (getMessages rid rn (some T) chunk).messages =
      fetchRoomMessages (some T) chunk) := by
  refine ⟨?_, ?_, fun rid rn => rfl⟩
  · intro m hm
    unfold fetchRoomMessages at hm
    rw [List.mem_reverse, List.mem_map] at hm
    obtain ⟨e, he, rfl⟩ := hm
    rw [List.mem_filter] at he
    exact keepEvent_lt T e he.2
  · unfold fetchRoomMessages
    rw [List.pairwise_reverse, List.pairwise_map]
    have hfil : (chunk.filter (keepEvent (some T))).Pairwise
        (fun a b => b.originServerTs ≤ a.originServerTs) :=
      List.Pairwise.sublist (List.filter_sublist chunk) hsorted
    exact hfil.imp (fun h => by
      simpa [toFetchedMessage] using Nat.mul_le_mul_right 1000 h)

def eventPage0 : MatrixEvent :=
  { type := "m.room.message", sender := "@u:hs", body := "newest",
    msgtype := "m.text", originServerTs := 2000, eventId := "$a" }

def eventPage1 : MatrixEvent :=
  { type := "m.room.message", sender := "@v:hs", body := "older",
    msgtype := "m.text", originServerTs := 1000, eventId := "$b" }

/-- A two-page backward pagination of a room: the older message sits on
the second page, behind the continuation cursor. -/
def twoPageTransport : List (List MatrixEvent) := [[eventPage0], [eventPage1]]

/-- C4 (code bug): the code's fetch reads only the first transport page
and never follows the continuation cursor, so a message newer than the
cutoff that lies on the second page is silently dropped, while the
spec's drained fetch returns it. -/
theorem fetch_messages_not_paginated :
    fetchRoomMessagesPaged (some 0) twoPageTransport =
      [toFetchedMessage eventPage0] ∧
    specDrainedFetch (some 0) twoPageTransport =
      [toFetchedMessage eventPage1, toFetchedMessage eventPage0] ∧
    0 < (toFetchedMessage eventPage1).timestampUs ∧
    toFetchedMessage eventPage1 ∉
      fetchRoomMessagesPaged (some 0) twoPageTransport := by
  refine ⟨by decide, by decide, by decide, by decide⟩

/-- Witness for `fetch_messages_filter_and_order` at a concrete
reverse-chronological chunk. -/
theorem fetch_messages_filter_and_order_witness :
    (∀ m ∈ fetchRoomMessages (some 1500000) [eventPage0, eventPage1],
      1500000 < m.timestampUs) ∧
    (fetchRoomMessages (some 1500000) [eventPage0, eventPage1]).Pairwise
      (fun a b => a.timestampUs ≤ b.timestampUs) ∧
    (∀ rid rn,
      (getMessages rid rn (some 1500000) [eventPage0, eventPage1]).messages =
        fetchRoomMessages (some 1500000) [eventPage0, eventPage1]) :=
  fetch_messages_filter_and_order 1500000 [eventPage0, eventPage1] (by decide)

/-! ## LLM client (`LLMService.process`)

The completion response `content` is a plain string.  The code locates
the span from the first `\x7b` to the last `\x7d`, feeds it to
`json.loads` inside a `try`, and on any failure (or when no such span
exists) returns the hard-coded degraded dict.  Python dicts are
embedded as association lists over a JSON value type; `json.loads` is
the external parser boundary, passed in as a function returning the
parsed object's fields, or `none` when parsing raises. -/

/-- JSON values, as produced by `json.loads`. -/
inductive JVal where
  | null
  | bool (b : Bool)
  | num (n : Int)
  | str (s : String)
  | arr (xs : List JVal)
  | obj (fields : List (String × JVal))

/-- A Python dict with string keys. -/
abbrev PyDict := List (String × JVal)

/-- Python `d[k]` read (`None`-free): first binding wins. -/
def pyLookup (d : PyDict) (k : String) : Option JVal :=
  match d with
  | [] => none
  | (k', v) :: rest => if k' = k then some v else pyLookup rest k

/-- Python `d.get(k, default)`. -/
def pyGet (d : PyDict) (k : String) (default : JVal) : JVal :=
  (pyLookup d k).getD default

/-- Python `d[k] = v`: overwrite the binding if present, else add it. -/
def pyDictSet (d : PyDict) (k : String) (v : JVal) : PyDict :=
  match d with
  | [] => [(k, v)]
  | (k', v') :: rest =>
    if k' = k then (k', v) :: rest else (k', v') :: pyDictSet rest k v

/-- Python `s.find(c)`: index of the first occurrence, `None` for `-1`. -/
def pyFindIdx (cs : List Char) (c : Char) : Option Nat :=
  cs.findIdx? (fun x => x = c)

/-- Python `s.rfind(c)`: index of the last occurrence, `None` for `-1`. -/
def pyRfindIdx (cs : List Char) (c : Char) : Option Nat :=
  (cs.reverse.findIdx? (fun x => x = c)).map (fun k => cs.length - 1 - k)

/-- The brace-span extraction of `LLMService.process`:
`content[start_idx:end_idx]` when `start_idx != -1 and
end_idx > start_idx`, else nothing. -/
def extractBraceSpan (cs : List Char) : Option (List Char) :=
  match pyFindIdx cs '{', pyRfindIdx cs '}' with
  | some i, some j => if i ≤ j then some ((cs.drop i).take (j + 1 - i)) else none
  | some _, none => none
  | none, _ => none

/-- The degraded result dict returned when no JSON object is found or
parsing fails. -/
def fallbackResult (room : JVal) (content : String) : PyDict :=
  [("room", room), ("summary", JVal.str content), ("reply", JVal.null),
   ("needs_more_information", JVal.bool false), ("todo_list", JVal.arr [])]

/-- The room descriptor taken from the input context:
`room = context.get("room", \x7b\x7d)`. -/
def contextRoom (context : PyDict) : JVal := pyGet context "room" (JVal.obj [])

/-- The parse/fallback tail of `LLMService.process` applied to the
completion response text.  `jsonLoads` is the external `json.loads`:
`none` models a `JSONDecodeError`/`ValueError`; a successful parse of a
text that starts with an opening brace is a JSON object, given as its
field list. -/
def llmProcess (jsonLoads : String → Option PyDict) (context : PyDict)
    (content : String) : PyDict :=
  let room := contextRoom context
  match extractBraceSpan content.data with
  | some span =>
    match jsonLoads (String.mk span) with
    | some fields => pyDictSet fields "room" room
    | none => fallbackResult room content
  | none => fallbackResult room content

theorem pyLookup_pyDictSet (d : PyDict) (k : String) (v : JVal) :
    pyLookup (pyDictSet d k v) k = some v := by
  induction d with
  | nil => simp [pyDictSet, pyLookup]
  | cons kv rest ih =>
    by_cases h : kv.1 = k
    · simp [pyDictSet, pyLookup, h]
    · simp [pyDictSet, pyLookup, h, ih]

/-- C5: whenever no brace span is found in the response text, or
`json.loads` fails on the extracted span, `process` returns (it does not
raise) exactly the degraded dict: summary is the raw response text,
reply is `None`, `needs_more_information` is `False`, and the
task-update and new-task collections read by the reconciler
(`result.get("todo_updates", [])`, `result.get("new_todos", [])`) as
well as the stored `todo_list` are empty. -/
theorem llm_process_degraded_fallback (jsonLoads : String → Option PyDict)
    (context : PyDict) (content : String)
    (hfail : ∀ span, extractBraceSpan content.data = some span →
      jsonLoads (String.mk span) = none) :
    llmProcess jsonLoads context content =
      fallbackResult (contextRoom context) content ∧
    pyLookup (llmProcess jsonLoads context content) "summary" =
      some (JVal.str content) ∧
    pyLookup (llmProcess jsonLoads context content) "reply" = some JVal.null ∧
    pyLookup (llmProcess jsonLoads context content) "needs_more_information" =
      some (JVal.bool false) ∧
    pyGet (llmProcess jsonLoads context content) "todo_updates" (JVal.arr []) =
      JVal.arr [] ∧
    pyGet (llmProcess jsonLoads context content) "new_todos" (JVal.arr []) =
      JVal.arr [] ∧
    pyLookup (llmProcess jsonLoads context content) "todo_list" =
      some (JVal.arr []) := by
  have hres : llmProcess jsonLoads context content =
      fallbackResult (contextRoom context) content := by
    unfold llmProcess
    cases hx : extractBraceSpan content.data with
    | none => rfl
    | some span => simp [hfail span hx]
  refine ⟨hres, ?_, ?_, ?_, ?_, ?_, ?_⟩ <;>
    simp [hres, fallbackResult, pyLookup, pyGet]

/-- Witness for `llm_process_degraded_fallback`: a parser that always
fails, on a prose response. -/
theorem llm_process_degraded_fallback_witness :
    llmProcess (fun _ => none) [] "no json here" =
      fallbackResult (contextRoom []) "no json here" :=
  (llm_process_degraded_fallback (fun _ => none) [] "no json here"
    (fun _ _ => rfl)).1

/-- C10: for every context, every response text and every behaviour of
the JSON parser, the `"room"` entry of the dict returned by `process`
is the room descriptor taken from the input context — a parsed `"room"`
value from the model is overwritten, and the degraded fallback also
carries the context's room. -/
theorem llm_process_room_pinned_to_context
    (jsonLoads : String → Option PyDict) (context : PyDict)
    (content : String) :
    pyLookup (llmProcess jsonLoads context content) "room" =
      some (contextRoom context) := by
  unfold llmProcess
  cases hx : extractBraceSpan content.data with
  | none => rfl
  | some span =>
    cases hj : jsonLoads (String.mk span) with
    | none => simp [hj, fallbackResult, pyLookup]
    | some fields =>
      simp only [hj]
      exact pyLookup_pyDictSet fields "room" (contextRoom context)

/-! ## Task reconciliation (`LLMService.process_room`, todo-update loop)

A `TodoList` row: `room` is a nullable foreign key to `SubscriberRoom`
(a todo may be general), `status` is one of `pending | done | cancelled`,
`notes` is a blank-default text field. -/

structure TodoItem where
  id : Nat
  room : Option Nat
  description : String
  status : String
  notes : String
deriving Repr, DecidableEq

/-- One entry of the LLM's `todo_updates` array, as read via
`update.get("id")`, `update.get("status")`, `update.get("notes")`. -/
structure TodoUpdate where
  id : Option Int
  status : Option String
  notes : Option String
deriving Repr, DecidableEq

/-- Python truthiness of `update.get("id")`: missing (`None`) or `0`. -/
def updateIdFalsy (u : TodoUpdate) : Bool :=
  match u.id with
  | none => true
  | some i => i == 0

/-- The lookup condition `TodoList.objects.get(id=todo_id, room=room)`:
the row's id matches AND the row belongs to this room. -/
def isUpdateTarget (roomPk : Nat) (uid : Int) (t : TodoItem) : Bool :=
  ((t.id : Int) == uid) && (t.room == some roomPk)

/-- The field mutation applied to the fetched todo: the status is
assigned only when it is one of the three valid values, and notes are
appended (joined by a newline when non-empty notes already exist)
only when the update carries truthy notes. -/
def applyStatusAndNotes (u : TodoUpdate) (t : TodoItem) : TodoItem :=
  let t1 :=
    match u.status with
    | some s =>
      if s = "done" ∨ s = "cancelled" ∨ s = "pending" then
        { t with status := s }
      else t
    | none => t
  match u.notes with
  | some n =>
    if n ≠ "" then
      if t1.notes ≠ "" then { t1 with notes := t1.notes ++ "\n" ++ n }
      else { t1 with notes := n }
    else t1
  | none => t1

/-- Replace the first element satisfying `p` (the unique row `get`
returns); when none does (`DoesNotExist`), the list is unchanged
(`except TodoList.DoesNotExist: pass`). -/
def updateFirst (p : TodoItem → Bool) (f : TodoItem → TodoItem) :
    List TodoItem → List TodoItem
  | [] => []
  | t :: ts => if p t then f t :: ts else t :: updateFirst p f ts

/-- One iteration of the `for update in todo_updates` loop over the
todo table. -/
def applyTodoUpdate (roomPk : Nat) (todos : List TodoItem)
    (u : TodoUpdate) : List TodoItem :=
  if updateIdFalsy u then todos
  else
    match u.id with
    | none => todos
    | some uid =>
      updateFirst (isUpdateTarget roomPk uid) (applyStatusAndNotes u) todos

/-- The whole `todo_updates` loop. -/
def applyTodoUpdates (roomPk : Nat) (us : List TodoUpdate)
    (todos : List TodoItem) : List TodoItem :=
  us.foldl (applyTodoUpdate roomPk) todos

/-- Boolean check that no row of the table is the update's target in
this room. -/
def noUpdateTarget (roomPk : Nat) (u : TodoUpdate)
    (todos : List TodoItem) : Bool :=
  todos.all (fun t =>
    match u.id with
    | some uid => !(isUpdateTarget roomPk uid t)
    | none => true)

theorem updateFirst_length (p : TodoItem → Bool) (f : TodoItem → TodoItem)
    (l : List TodoItem) : (updateFirst p f l).length = l.length := by
  induction l with
  | nil => rfl
  | cons t ts ih =>
    by_cases h : p t <;> simp [updateFirst, h, ih]

theorem updateFirst_eq_of_no_match (p : TodoItem → Bool)
    (f : TodoItem → TodoItem) (l : List TodoItem)
    (h : ∀ t ∈ l, p t = false) : updateFirst p f l = l := by
  induction l with
  | nil => rfl
  | cons t ts ih =>
    have ht := h t (List.mem_cons_self t ts)
    simp [updateFirst, ht]
    exact ih (fun x hx => h x (List.mem_cons_of_mem t hx))

theorem updateFirst_getElem?_of_not_matching (p : TodoItem → Bool)
    (f : TodoItem → TodoItem) (l : List TodoItem) (i : Nat) (t : TodoItem)
    (hget : l[i]? = some t) (hp : p t = false) :
    (updateFirst p f l)[i]? = some t := by
  induction l generalizing i with
  | nil => simp at hget
  | cons x xs ih =>
    cases i with
    | zero =>
      simp only [List.getElem?_cons_zero, Option.some.injEq] at hget
      subst hget
      simp [updateFirst, hp]
    | succ j =>
      simp only [List.getElem?_cons_succ] at hget
      by_cases hx : p x
      · simp only [updateFirst, hx, if_true, List.getElem?_cons_succ]
        exact hget
      · simp only [updateFirst, hx, if_false, Bool.false_eq_true,
          List.getElem?_cons_succ]
        exact ih j hget

theorem applyTodoUpdate_getElem?_other_room (roomPk : Nat) (u : TodoUpdate)
    (todos : List TodoItem) (i : Nat) (t : TodoItem)
    (hget : todos[i]? = some t) (hroom : t.room ≠ some roomPk) :
    (applyTodoUpdate roomPk todos u)[i]? = some t := by
  unfold applyTodoUpdate
  by_cases hf : updateIdFalsy u
  · rw [if_pos hf]
    exact hget
  · rw [if_neg hf]
    cases hid : u.id with
    | none => exact hget
    | some uid =>
      exact updateFirst_getElem?_of_not_matching _ _ _ _ _ hget
        (by unfold isUpdateTarget; simp [hroom])

/-- C6: task reconciliation resolves the target by id scoped to the
room.  First conjunct: an update whose id matches no task of this room
leaves the entire task table unchanged (and, being a total function,
raises nothing).  Second conjunct: a task that belongs to a different
room (or to no room) is never mutated by any sequence of updates
applied for this room. -/
theorem todo_update_scoped_and_skip_unknown (roomPk : Nat) :
    (∀ (u : TodoUpdate) (todos : List TodoItem),
      noUpdateTarget roomPk u todos = true →
      applyTodoUpdate roomPk todos u = todos) ∧
    (∀ (us : List TodoUpdate) (todos : List TodoItem) (i : Nat)
      (t : TodoItem), todos[i]? = some t → t.room ≠ some roomPk →
      (applyTodoUpdates roomPk us todos)[i]? = some t) := by
  constructor
  · intro u todos hno
    unfold applyTodoUpdate
    by_cases hf : updateIdFalsy u
    · rw [if_pos hf]
    · rw [if_neg hf]
      cases hid : u.id with
      | none => rfl
      | some uid =>
        apply updateFirst_eq_of_no_match
        intro t ht
        have := (List.all_eq_true.mp hno) t ht
        rw [hid] at this
        simpa using this
  · intro us
    induction us with
    | nil =>
      intro todos i t hget _hroom
      exact hget
    | cons u rest ih =>
      intro todos i t hget hroom
      have h1 := applyTodoUpdate_getElem?_other_room roomPk u todos i t
        hget hroom
      exact ih (applyTodoUpdate roomPk todos u) i t h1 hroom

def todoEx1 : TodoItem :=
  { id := 3, room := some 1, description := "buy milk",
    status := "pending", notes := "" }

def todoEx2 : TodoItem :=
  { id := 5, room := some 2, description := "other room task",
    status := "pending", notes := "" }

def todoUpdateEx : TodoUpdate :=
  { id := some 5, status := some "done", notes := none }

/-- Witness for `todo_update_scoped_and_skip_unknown`: an update
naming id 5 against room 1, whose only id-5 task lives in room 2 —
the table is unchanged, and room 2's task is untouched. -/
theorem todo_update_scoped_and_skip_unknown_witness :
    applyTodoUpdate 1 [todoEx1, todoEx2] todoUpdateEx = [todoEx1, todoEx2] ∧
    (applyTodoUpdates 1 [todoUpdateEx] [todoEx1, todoEx2])[1]? =
      some todoEx2 :=
  ⟨(todo_update_scoped_and_skip_unknown 1).1 todoUpdateEx [todoEx1, todoEx2]
      (by decide),
   (todo_update_scoped_and_skip_unknown 1).2 [todoUpdateEx]
      [todoEx1, todoEx2] 1 todoEx2 (by decide) (by decide)⟩

/-! ## Room-code (alias) generation (`SubscriberRoom._generate_unique_code`)

Codes are modelled as `List Char`.  Randomness (`secrets.choice`) is an
explicit draw stream `Nat → Fin 31` indexing into the alphabet, consumed
in the order the code consumes it: four draws per attempt, and one more
for the fallback character. -/

/-- The restricted alphabet `23456789abcdefghjkmnpqrstuvwxyz`
(no `0/O`, `1/l/I`). -/
def roomCodeAlphabet : List Char :=
  ("23456789abcdefghjkmnpqrstuvwxyz").data

/-- One `secrets.choice(ROOM_CODE_ALPHABET)` draw. -/
def alphabetChar (i : Fin 31) : Char := roomCodeAlphabet.getD i.val ' '

/-- The 4-character candidate of attempt `k` (`ROOM_CODE_LENGTH = 4`). -/
def codeAttempt (draw : Nat → Fin 31) (k : Nat) : List Char :=
  (List.range 4).map (fun j => alphabetChar (draw (4 * k + j)))

/-- `SubscriberRoom._generate_unique_code`: up to 10 attempts, each
checked against the subscriber's existing codes; after 10 collisions the
last attempt's code is returned with one extra random character appended
— without any further uniqueness check. -/
def generateUniqueCode (draw : Nat → Fin 31)
    (existing : List (List Char)) : List Char :=
  match (List.range 10).find?
      (fun k => decide (codeAttempt draw k ∉ existing)) with
  | some k => codeAttempt draw k
  | none => codeAttempt draw 9 ++ [alphabetChar (draw 40)]

/-- Sequential creation of `n` rooms for one subscriber: each new code
is generated against the codes assigned so far (`draws i` is the draw
stream used for the i-th room). -/
def assignCodes (draws : Nat → Nat → Fin 31) (init : List (List Char)) :
    Nat → List (List Char)
  | 0 => init
  | n + 1 =>
    let prev := assignCodes draws init n
    prev ++ [generateUniqueCode (draws n) prev]

/-- A draw stream whose 40 attempt draws all yield `a` and whose
fallback draw yields `2`. -/
def collidingDraw : Nat → Fin 31 :=
  fun i => if i < 40 then (8 : Fin 31) else (0 : Fin 31)

/-- C9 counterexample: with existing aliases `aaaa` and `aaaa2`, every
one of the 10 attempts collides with `aaaa`, and the fallback
`aaaa` + `2` equals the previously assigned alias `aaaa2` — the
fallback CAN produce an alias previously assigned to the subscriber. -/
theorem generate_code_fallback_collision :
    generateUniqueCode collidingDraw
        [['a', 'a', 'a', 'a'], ['a', 'a', 'a', 'a', '2']] =
      ['a', 'a', 'a', 'a', '2'] ∧
    ['a', 'a', 'a', 'a', '2'] ∈
      [['a', 'a', 'a', 'a'], ['a', 'a', 'a', 'a', '2']] := by
  refine ⟨by decide, by decide⟩

theorem codeAttempt_length (draw : Nat → Fin 31) (k : Nat) :
    (codeAttempt draw k).length = 4 := by
  simp [codeAttempt]

theorem alphabetChar_mem (i : Fin 31) :
    alphabetChar i ∈ roomCodeAlphabet := by
  fin_cases i <;> decide

theorem generateUniqueCode_loop_not_mem (draw : Nat → Fin 31)
    (existing : List (List Char)) (k : Nat)
    (h : (List.range 10).find?
      (fun j => decide (codeAttempt draw j ∉ existing)) = some k) :
    generateUniqueCode draw existing ∉ existing := by
  have hp := List.find?_some h
  unfold generateUniqueCode
  rw [h]
  exact of_decide_eq_true hp

/-- Any collision of a freshly generated code is a fallback collision:
when the subscriber holds no 5-character alias, the generated code is
new. -/
theorem generateUniqueCode_not_mem_of_no_len5 (draw : Nat → Fin 31)
    (existing : List (List Char)) (hlen : ∀ e ∈ existing, e.length ≠ 5) :
    generateUniqueCode draw existing ∉ existing := by
  cases hfind : (List.range 10).find?
      (fun k => decide (codeAttempt draw k ∉ existing)) with
  | some k => exact generateUniqueCode_loop_not_mem draw existing k hfind
  | none =>
    unfold generateUniqueCode
    rw [hfind]
    intro hmem
    have h5 : (codeAttempt draw 9 ++ [alphabetChar (draw 40)]).length = 5 := by
      rw [List.length_append, codeAttempt_length]
      rfl
    exact hlen _ hmem h5

/-- C9 amended: every character of a generated code comes from the
restricted alphabet; a code produced within the 10-attempt retry loop
never collides with an existing alias; the appended-character fallback
has length 5, so it cannot collide as long as the subscriber has no
5-character alias (in particular never with a standard 4-character
alias) — and under that proviso, N sequentially created rooms get
pairwise-distinct aliases. -/
theorem room_codes_distinct_amended (draw : Nat → Fin 31)
    (draws : Nat → Nat → Fin 31) (init existing : List (List Char))
    (n : Nat) :
    (∀ c ∈ generateUniqueCode draw existing, c ∈ roomCodeAlphabet) ∧
    ((∀ e ∈ existing, e.length ≠ 5) →
      generateUniqueCode draw existing ∉ existing) ∧
    (init.Nodup → (∀ e ∈ assignCodes draws init n, e.length ≠ 5) →
      (assignCodes draws init n).Nodup) := by
  refine ⟨?_, ?_, ?_⟩
  · intro c hc
    unfold generateUniqueCode at hc
    cases hfind : (List.range 10).find?
        (fun k => decide (codeAttempt draw k ∉ existing)) with
    | some k =>
      rw [hfind] at hc
      unfold codeAttempt at hc
      rw [List.mem_map] at hc
      obtain ⟨j, _, rfl⟩ := hc
      exact alphabetChar_mem _
    | none =>
      rw [hfind] at hc
      rw [List.mem_append] at hc
      rcases hc with hc | hc
      · unfold codeAttempt at hc
        rw [List.mem_map] at hc
        obtain ⟨j, _, rfl⟩ := hc
        exact alphabetChar_mem _
      · rw [List.mem_singleton] at hc
        subst hc
        exact alphabetChar_mem _
  · exact generateUniqueCode_not_mem_of_no_len5 draw existing
  · intro hinit hlen
    induction n with
    | zero => exact hinit
    | succ m ih =>
      have hsub : ∀ e ∈ assignCodes draws init m, e.length ≠ 5 := by
        intro e he
        refine hlen e ?_
        unfold assignCodes
        rw [List.mem_append]
        exact Or.inl he
      have hprev : (assignCodes draws init m).Nodup := by
        refine ih ?_
        exact hsub
      unfold assignCodes
      rw [List.nodup_append]
      refine ⟨hprev, List.nodup_singleton _, ?_⟩
      intro a ha hb
      rw [List.mem_singleton] at hb
      subst hb
      have hnot := generateUniqueCode_not_mem_of_no_len5 (draws m)
        (assignCodes draws init m) hsub
      exact hnot ha

def allTwosDraw : Nat → Fin 31 := fun _ => 0

def distinctDraws : Nat → Nat → Fin 31 := fun i _ => ⟨i % 31, by omega⟩

/-- Witness for `room_codes_distinct_amended`: an empty alias set and
two sequentially created rooms with distinct draw streams. -/
theorem room_codes_distinct_amended_witness :
    (∀ c ∈ generateUniqueCode allTwosDraw [], c ∈ roomCodeAlphabet) ∧
    generateUniqueCode allTwosDraw [] ∉ ([] : List (List Char)) ∧
    (assignCodes distinctDraws [] 2).Nodup := by
  obtain ⟨h1, h2, h3⟩ :=
    room_codes_distinct_amended allTwosDraw distinctDraws [] [] 2
  exact ⟨h1, h2 (by simp), h3 List.nodup_nil (by decide)⟩

/-! ## The worker loop (`core/management/commands/summarize_rooms.py`)

The orchestrator is embedded as a state-passing interpreter over an
explicit database value, with external effects surfaced as data:

 - the chat gateway's sends are collected into a trace;
 - the last control-room message per subscriber, and the outcome of the
   context-build / LLM / send phase per room, are oracle inputs
   (`SubEnv`, `RoomStep`) — each `RoomStep` constructor marks where the
   room's `try` body stopped, mirroring exactly which database
   mutations had already happened at that point;
 - wall-clock time is an `Int` of seconds (`now`) and an `Int` day
   ordinal (`today`).

Python string handling for the command router is embedded over
`List Char` with ASCII semantics for `lower`, `strip` and `split`. -/

/-- Python `\s` (ASCII range). -/
def isPySpace (c : Char) : Bool :=
  c = ' ' || c = '\t' || c = '\n' || c = '\r' || c.toNat = 11 || c.toNat = 12

/-- Python `str.lower()` (ASCII). -/
def pyLower (cs : List Char) : List Char := cs.map Char.toLower

/-- Python `str.strip()` (ASCII whitespace). -/
def pyStrip (cs : List Char) : List Char :=
  ((cs.dropWhile isPySpace).reverse.dropWhile isPySpace).reverse

/-- Helper for `str.split()`: accumulates the current token. -/
def pySplitAux : List Char → List Char → List (List Char)
  | [], acc => if acc.isEmpty then [] else [acc.reverse]
  | c :: rest, acc =>
    if isPySpace c then
      if acc.isEmpty then pySplitAux rest []
      else acc.reverse :: pySplitAux rest []
    else pySplitAux rest (c :: acc)

/-- Python `str.split()` with no argument: split on whitespace runs,
no empty tokens. -/
def pySplit (cs : List Char) : List (List Char) := pySplitAux cs []

/-- Strip a literal off the front of the input, or fail. -/
def dropLit : List Char → List Char → Option (List Char)
  | [], cs => some cs
  | _ :: _, [] => none
  | l :: ls, c :: cs => if c = l then dropLit ls cs else none

/-- Anchored regex of shape `^kw\s+lit$` (e.g. `^summary\s+all$`),
applied to the already lowercased, stripped message. -/
def matchKwSpaceLit (kw lit : List Char) (cs : List Char) : Bool :=
  match dropLit kw cs with
  | none => false
  | some rest =>
    let ws := rest.takeWhile isPySpace
    !ws.isEmpty && (rest.drop ws.length == lit)

/-- Anchored regex of shape `^kw\s+(\S+)$` (e.g. `^summary\s+(\S+)$`):
returns the captured group. -/
def matchKwSpaceArg (kw : List Char) (cs : List Char) : Option (List Char) :=
  match dropLit kw cs with
  | none => none
  | some rest =>
    let ws := rest.takeWhile isPySpace
    let arg := rest.drop ws.length
    if !ws.isEmpty && !arg.isEmpty && arg.all (fun c => !isPySpace c) then
      some arg
    else none

/-- The six commands of the `COMMANDS` table. -/
inductive ParsedCommand where
  | help
  | rooms
  | summaryAll
  | summaryRoom (code : List Char)
  | todoAll
  | todoRoom (code : List Char)
deriving Repr, DecidableEq

/-- `Command.parse_command`: the patterns are tried in the `COMMANDS`
dict order (decreasing specificity). The input is the message body,
already lowercased and stripped by `process_subscriber`. -/
def parseCommand (cs : List Char) : Option ParsedCommand :=
  if cs == "help".data then some ParsedCommand.help
  else if cs == "rooms".data then some ParsedCommand.rooms
  else if matchKwSpaceLit "summary".data "all".data cs then
    some ParsedCommand.summaryAll
  else
    match matchKwSpaceArg "summary".data cs with
    | some arg => some (ParsedCommand.summaryRoom arg)
    | none =>
      if matchKwSpaceLit "todo".data "all".data cs then
        some ParsedCommand.todoAll
      else
        match matchKwSpaceArg "todo".data cs with
        | some arg => some (ParsedCommand.todoRoom arg)
        | none => none

/-- `Command.looks_like_command`: the first whitespace-separated word is
one of the recognized keyword tokens (the empty message yields the empty
first word, which is not recognized). -/
def looksLikeCommand (cs : List Char) : Bool :=
  [("help").data, ("rooms").data, ("room").data, ("summary").data,
   ("todo").data, ("task").data, ("tasks").data].contains
    ((pySplit cs).headD [])

/-! ### Database rows -/

/-- A `Subscriber` row (the fields the worker reads). -/
structure MSubscriber where
  id : Nat
  matrixRoomId : Option String
  isActive : Bool
deriving Repr, DecidableEq

/-- A `Subscription` row. -/
structure MSubscription where
  subscriberId : Nat
  status : String
deriving Repr, DecidableEq

/-- A `SubscriberRoom` row. -/
structure MRoom where
  id : Nat
  subscriberId : Nat
  roomId : String
  roomCode : Option String
  roomName : Option String
  platform : String
  isActive : Bool
deriving Repr, DecidableEq

/-- A `RoomSummary` row (`sentAt` in seconds; `none` is SQL NULL). -/
structure MSummary where
  id : Nat
  roomId : Nat
  summary : String
  reply : Option String
  needsMoreInformation : Bool
  todoList : List String
  messageCount : Nat
  sentAt : Option Int
deriving Repr, DecidableEq

/-- A `ConversationProcessingState` row. -/
structure MProcState where
  roomId : Nat
  status : String
  failureReason : String
  lastMessageSyncedAt : Option Int
  lastSummarizedAt : Option Int
deriving Repr, DecidableEq

/-- A `RoomDailySummaryCount` row. -/
structure MDailyCount where
  roomId : Nat
  date : Int
  count : Nat
deriving Repr, DecidableEq

/-- The relational state the worker reads and writes.  List order is
insertion order (ascending `created_at` / primary key). -/
structure DB where
  subscribers : List MSubscriber
  subscriptions : List MSubscription
  rooms : List MRoom
  summaries : List MSummary
  states : List MProcState
  todos : List TodoItem
  dailyCounts : List MDailyCount
deriving Repr, DecidableEq

/-- The observable events of a run: messages sent to Matrix control
rooms, which rooms and subscribers the loops attempted, and every
status value written to a `ConversationProcessingState` row. -/
structure Trace where
  sent : List (String × String) := []
  attemptedRooms : List Nat := []
  attemptedSubs : List Nat := []
  statusWrites : List (Nat × String) := []
deriving Repr, DecidableEq

def traceApp (a b : Trace) : Trace :=
  { sent := a.sent ++ b.sent,
    attemptedRooms := a.attemptedRooms ++ b.attemptedRooms,
    attemptedSubs := a.attemptedSubs ++ b.attemptedSubs,
    statusWrites := a.statusWrites ++ b.statusWrites }

/-- The extracted fields of a successful `LLMService.process` result as
consumed by `process_room` (`result.get(...)` reads), together with the
metadata the context carried. -/
structure LLMOutcome where
  summary : String
  reply : Option String
  needsMoreInformation : Bool
  todoUpdates : List TodoUpdate
  newTodos : List String
  messageCount : Nat
  toTimestamp : Int
deriving Repr, DecidableEq

/-- Where the `try` body of the per-room loop of `process_summaries`
stopped.  `buildRaises`: the context build raised (network error);
`noMessages`: the context was `None` (nothing to do, `continue`);
`llmRaises`: the LLM call inside `process_room` raised, before any
database write of `process_room`; `sendRaises`: `process_room` and the
daily-count increment finished but `send_message` raised, so `sent_at`
is never recorded; `ok`: the full body ran. -/
inductive RoomStep where
  | buildRaises
  | noMessages
  | llmRaises
  | sendRaises (r : LLMOutcome)
  | ok (r : LLMOutcome)
deriving Repr, DecidableEq

/-- The external inputs consumed while processing one subscriber:
the fetched last control-room message (`Except` models a gateway
exception), and the per-room outcome keyed by `SubscriberRoom` id. -/
structure SubEnv where
  lastMessage : Except String (Option (String × String))
  roomStep : Nat → RoomStep

def FRIDAY_USER_ID : String := "@friday:matrix.tirta.me"

/-- `subscriber.matrix_room_id` as the send destination. -/
def dest (sub : MSubscriber) : String := sub.matrixRoomId.getD ""

/-! ### Cooldown (`Command.check_summary_cooldown`) -/

/-- All `SubscriberRoom` ids (active or not) of a subscriber, as joined
by `room__subscriber=subscriber`. -/
def subscriberRoomIds (db : DB) (subId : Nat) : List Nat :=
  (db.rooms.filter (fun r => r.subscriberId == subId)).map (fun r => r.id)

/-- The `sent_at` values of delivered summaries across all the
subscriber's rooms (`sent_at__isnull=False`). -/
def deliveredTimes (db : DB) (subId : Nat) : List Int :=
  (db.summaries.filter
    (fun s => (subscriberRoomIds db subId).contains s.roomId)).filterMap
    (fun s => s.sentAt)

/-- `order_by("-sent_at").first()`: the most recent delivery timestamp,
when any delivered summary exists. -/
def latestDeliveredAt (db : DB) (subId : Nat) : Option Int :=
  (deliveredTimes db subId).max?

def SUMMARY_COOLDOWN_MINUTES : Int := 15

/-- The cooldown reply text; `remaining` is
`15 - int(time_since.total_seconds() / 60)` (Python `int()` truncates
toward zero, as does `Int.div`). -/
def waitMessage (remaining : Int) : String :=
  "Please wait " ++ toString remaining ++
    " more minutes for the next summary."

/-- `Command.check_summary_cooldown`: `true` means OK to proceed; the
returned list holds the wait reply sent in the cooling-down case. -/
def checkSummaryCooldown (now : Int) (db : DB) (sub : MSubscriber) :
    Bool × List (String × String) :=
  match latestDeliveredAt db sub.id with
  | none => (true, [])
  | some t =>
    let elapsed := now - t
    if elapsed < SUMMARY_COOLDOWN_MINUTES * 60 then
      (false,
        [(dest sub,
          waitMessage (SUMMARY_COOLDOWN_MINUTES - Int.tdiv elapsed 60))])
    else (true, [])

/-! ### Per-room processing (`Command.process_summaries`,
`LLMService.process_room`) -/

/-- `ConversationProcessingState.objects.get_or_create(room=room,
defaults=\x7b"status": STATUS_IDLE\x7d)`.  Returns the updated database, the
row, and the status writes this performed (a creation writes "idle"). -/
def getOrCreateState (db : DB) (roomPk : Nat) :
    DB × MProcState × List (Nat × String) :=
  match db.states.find? (fun st => st.roomId == roomPk) with
  | some st => (db, st, [])
  | none =>
    let st : MProcState :=
      { roomId := roomPk, status := "idle", failureReason := "",
        lastMessageSyncedAt := none, lastSummarizedAt := none }
    ({ db with states := db.states ++ [st] }, st, [(roomPk, "idle")])

/-- The state update at the end of a successful `process_room`:
status back to idle, watermarks advanced, failure reason cleared. -/
def saveStateIdle (db : DB) (roomPk : Nat) (now toTs : Int) : DB :=
  { db with states := db.states.map (fun st =>
      if st.roomId == roomPk then
        { st with
            status := "idle"
            lastMessageSyncedAt := some toTs
            lastSummarizedAt := some now
            failureReason := "" }
      else st) }

/-- Fresh primary key for a new `TodoList` row. -/
def nextTodoId (todos : List TodoItem) : Nat :=
  (todos.map (fun t => t.id)).foldr max 0 + 1

/-- The `for description in new_todos` creation loop: only non-empty
strings create a pending task. -/
def createNewTodos (roomPk : Nat) (descriptions : List String)
    (todos : List TodoItem) : List TodoItem :=
  descriptions.foldl
    (fun acc d =>
      if d ≠ "" then
        acc ++ [{ id := nextTodoId acc, room := some roomPk,
                  description := d, status := "pending", notes := "" }]
      else acc)
    todos

/-- Fresh primary key for a new `RoomSummary` row. -/
def nextSummaryId (summaries : List MSummary) : Nat :=
  (summaries.map (fun s => s.id)).foldr max 0 + 1

/-- `Command.get_and_increment_daily_count`: get-or-create the
(room, date) row, atomically increment, and return the new count. -/
def getAndIncrementDailyCount (db : DB) (roomPk : Nat) (today : Int) :
    DB × Nat :=
  match db.dailyCounts.find?
      (fun d => d.roomId == roomPk && d.date == today) with
  | some d =>
    ({ db with dailyCounts := db.dailyCounts.map (fun x =>
        if x.roomId == roomPk && x.date == today then
          { x with count := d.count + 1 }
        else x) },
     d.count + 1)
  | none =>
    ({ db with dailyCounts :=
        db.dailyCounts ++ [{ roomId := roomPk, date := today, count := 1 }] },
     1)

/-- `LLMService.format_summary_message`: the multi-section reply text.
The pending-todos section reads the todo table (ordered by
`created_at`, i.e. list order) after reconciliation. -/
def formatSummaryMessage (db : DB) (room : MRoom) (s : MSummary)
    (questionCount : Nat) : String :=
  let header := ["Room: " ++ (room.roomName.getD room.roomId),
                 "Platform: " ++ room.platform, "",
                 "--- Summary ---", "", s.summary]
  let replySec :=
    match s.reply with
    | some r => if r ≠ "" then ["", "--- Suggested Reply ---", "", r] else []
    | none => []
  let needsSec := if s.needsMoreInformation then
      ["", "[Needs more information]"] else []
  let newItems :=
    if s.todoList.isEmpty then []
    else ["", "--- New Action Items ---"] ++
      (s.todoList.enum.map (fun p =>
        toString (p.1 + 1) ++ ". " ++ p.2))
  let pending := db.todos.filter
    (fun t => t.room == some room.id && t.status == "pending")
  let pendingSec :=
    if pending.isEmpty then []
    else ["", "--- Pending Todos ---"] ++
      (pending.map (fun t => "[" ++ toString t.id ++ "] " ++ t.description))
  let trailer := ["",
    "Messages processed: " ++ toString s.messageCount,
    "You have asked " ++ toString questionCount ++ " question(s) today"]
  String.intercalate "\n"
    (header ++ replySec ++ needsSec ++ newItems ++ pendingSec ++ trailer)

/-- The successful part of the room body (`process_room` followed by
the daily-count increment): reconcile todo updates, create new todos,
create the `RoomSummary` (no `sent_at` yet), save the state as idle,
increment the daily count. -/
structure RoomSuccess where
  newDb : DB
  sid : Nat
  summaryRow : MSummary
  questionCount : Nat
deriving Repr, DecidableEq

def roomSuccessCore (r : LLMOutcome) (now today : Int) (room : MRoom)
    (db1 : DB) : RoomSuccess :=
  let todos1 := applyTodoUpdates room.id r.todoUpdates db1.todos
  let todos2 := createNewTodos room.id r.newTodos todos1
  let sid := nextSummaryId db1.summaries
  let row : MSummary :=
    { id := sid, roomId := room.id, summary := r.summary, reply := r.reply,
      needsMoreInformation := r.needsMoreInformation,
      todoList := r.newTodos, messageCount := r.messageCount,
      sentAt := none }
  let db2 :=
    { db1 with
        todos := todos2
        summaries := db1.summaries ++ [row] }
  let db3 := saveStateIdle db2 room.id now r.toTimestamp
  let g := getAndIncrementDailyCount db3 room.id today
  { newDb := g.1, sid := sid, summaryRow := row, questionCount := g.2 }

/-- One iteration of the `for room in subscriber_rooms` loop of
`process_summaries`, with its surrounding `try`/`except`: the final
`Bool` tells whether a summary was sent for this room. -/
def runRoom (step : RoomStep) (now today : Int) (sub : MSubscriber)
    (room : MRoom) (db : DB) : DB × Trace × Bool :=
  let g := getOrCreateState db room.id
  match step with
  | RoomStep.buildRaises =>
    (g.1, { attemptedRooms := [room.id], statusWrites := g.2.2 }, false)
  | RoomStep.noMessages =>
    (g.1, { attemptedRooms := [room.id], statusWrites := g.2.2 }, false)
  | RoomStep.llmRaises =>
    (g.1, { attemptedRooms := [room.id], statusWrites := g.2.2 }, false)
  | RoomStep.sendRaises r =>
    let c := roomSuccessCore r now today room g.1
    (c.newDb,
     { attemptedRooms := [room.id],
       statusWrites := g.2.2 ++ [(room.id, "idle")] }, false)
  | RoomStep.ok r =>
    let c := roomSuccessCore r now today room g.1
    let msg := formatSummaryMessage c.newDb room c.summaryRow c.questionCount
    let db6 := { c.newDb with summaries := c.newDb.summaries.map (fun s =>
        if s.id == c.sid then { s with sentAt := some now } else s) }
    (db6,
     { sent := [(dest sub, msg)], attemptedRooms := [room.id],
       statusWrites := g.2.2 ++ [(room.id, "idle")] }, true)

/-- The loop body of `process_summaries` as a fold step over
(database, trace, summaries_sent). -/
def roomFoldStep (steps : Nat → RoomStep) (now today : Int)
    (sub : MSubscriber) (acc : DB × Trace × Nat) (room : MRoom) :
    DB × Trace × Nat :=
  let o := runRoom (steps room.id) now today sub room acc.1
  (o.1, traceApp acc.2.1 o.2.1, acc.2.2 + (if o.2.2 then 1 else 0))

/-- `Command.process_summaries`: iterate the target rooms, each in its
own `try`; if no room produced a sent summary, send the fallback
notice. -/
def processSummaries (steps : Nat → RoomStep) (now today : Int)
    (sub : MSubscriber) (rooms : List MRoom) (db : DB) : DB × Trace :=
  let folded := rooms.foldl (roomFoldStep steps now today sub)
    (db, ({} : Trace), 0)
  if folded.2.2 == 0 then
    (folded.1,
     traceApp folded.2.1
       { sent := [(dest sub, "Tidak ada pesan baru untuk diringkas.")] })
  else (folded.1, folded.2.1)

/-! ### Command handlers -/

/-- The subscriber's active rooms, as filtered by `handle_summary_all`
and `handle_rooms` (`Meta.ordering = ["-created_at"]`: newest first). -/
def activeRooms (db : DB) (subId : Nat) : List MRoom :=
  (db.rooms.filter (fun r => r.subscriberId == subId && r.isActive)).reverse

/-- Room lookup of `handle_summary_room` / `handle_todo_room`:
`room_code__iexact` (case-insensitive exact), active rooms of this
subscriber only, `.first()` under newest-first ordering. -/
def findRoomByCode (db : DB) (subId : Nat) (arg : List Char) :
    Option MRoom :=
  ((db.rooms.filter (fun r => r.subscriberId == subId && r.isActive)).reverse).find?
    (fun r =>
      match r.roomCode with
      | some c => pyLower c.data == pyLower arg
      | none => false)

def helpText : String :=
  "Available commands:\n\n• help - Show this help message\n• rooms - List your monitored rooms\n• summary all - Get summaries for all rooms\n• summary {room_code} - Get summary for a specific room\n• todo all - Show all pending tasks\n• todo {room_code} - Show tasks for a specific room"

def unknownCommandReply : String :=
  "Sorry, I didn't recognize that command. Type 'help' to see what I can do."

/-- `Command.handle_rooms`. -/
def handleRooms (db : DB) (sub : MSubscriber) : DB × Trace :=
  let rooms := activeRooms db sub.id
  if rooms.isEmpty then
    (db, { sent := [(dest sub, "You don't have any monitored rooms yet.")] })
  else
    let lines := "Your monitored rooms:\n" ::
      rooms.map (fun r =>
        "• " ++ (r.roomCode.getD "None") ++ " - " ++
          (r.roomName.getD r.roomId))
    (db, { sent := [(dest sub, String.intercalate "\n" lines)] })

/-- `Command.handle_summary_all`. -/
def handleSummaryAll (steps : Nat → RoomStep) (now today : Int)
    (sub : MSubscriber) (db : DB) : DB × Trace :=
  let rooms := activeRooms db sub.id
  if rooms.isEmpty then
    (db, { sent := [(dest sub, "You don't have any monitored rooms.")] })
  else
    let cd := checkSummaryCooldown now db sub
    if cd.1 then processSummaries steps now today sub rooms db
    else (db, { sent := cd.2 })

/-- `Command.handle_summary_room`. -/
def handleSummaryRoom (steps : Nat → RoomStep) (now today : Int)
    (sub : MSubscriber) (arg : List Char) (db : DB) : DB × Trace :=
  if arg.isEmpty then
    (db, { sent := [(dest sub,
      "Please specify a room code. Use 'rooms' to see your room codes.")] })
  else
    match findRoomByCode db sub.id arg with
    | none =>
      (db, { sent := [(dest sub,
        "Room '" ++ String.mk arg ++
          "' not found. Use 'rooms' to see your room codes.")] })
    | some room =>
      let cd := checkSummaryCooldown now db sub
      if cd.1 then processSummaries steps now today sub [room] db
      else (db, { sent := cd.2 })

/-- Pending todos across all the subscriber's rooms, newest first,
first 20 (`handle_todo_all`). -/
def pendingTodosAll (db : DB) (subId : Nat) : List TodoItem :=
  ((db.todos.filter (fun t =>
      (match t.room with
       | some rid => (subscriberRoomIds db subId).contains rid
       | none => false) && t.status == "pending")).reverse).take 20

/-- `Command.handle_todo_all`. -/
def handleTodoAll (db : DB) (sub : MSubscriber) : DB × Trace :=
  let todos := pendingTodosAll db sub.id
  if todos.isEmpty then
    (db, { sent := [(dest sub, "No pending tasks. You're all caught up!")] })
  else
    let lines := "Your pending tasks:\n" ::
      todos.map (fun t =>
        let tag :=
          match t.room with
          | some rid =>
            match db.rooms.find? (fun r => r.id == rid) with
            | some r => r.roomCode.getD "None"
            | none => "None"
          | none => "General"
        "• [" ++ tag ++ "] " ++ t.description)
    (db, { sent := [(dest sub, String.intercalate "\n" lines)] })

/-- `Command.handle_todo_room`. -/
def handleTodoRoom (db : DB) (sub : MSubscriber) (arg : List Char) :
    DB × Trace :=
  if arg.isEmpty then
    (db, { sent := [(dest sub,
      "Please specify a room code. Use 'rooms' to see your room codes.")] })
  else
    match findRoomByCode db sub.id arg with
    | none =>
      (db, { sent := [(dest sub,
        "Room '" ++ String.mk arg ++
          "' not found. Use 'rooms' to see your room codes.")] })
    | some room =>
      let todos := ((db.todos.filter (fun t =>
          t.room == some room.id && t.status == "pending")).reverse).take 20
      let roomName := room.roomName.getD (room.roomCode.getD "None")
      if todos.isEmpty then
        (db, { sent := [(dest sub,
          "No pending tasks for " ++ roomName ++ ".")] })
      else
        let lines := ("Pending tasks for " ++ roomName ++ ":\n") ::
          todos.map (fun t => "• " ++ t.description)
        (db, { sent := [(dest sub, String.intercalate "\n" lines)] })

/-- `Command.process_subscriber`: fetch the last control-room message,
skip the bot's own messages, lowercase/strip, parse, route.  An
`error` result models the gateway call raising (caught by `run_once`). -/
def processSubscriber (env : SubEnv) (now today : Int) (db : DB)
    (sub : MSubscriber) : Except String (DB × Trace) :=
  match env.lastMessage with
  | Except.error e => Except.error e
  | Except.ok none => Except.ok (db, {})
  | Except.ok (some (sender, body)) =>
    if sender == FRIDAY_USER_ID then Except.ok (db, {})
    else
      let mb := pyStrip (pyLower body.data)
      match parseCommand mb with
      | none =>
        if looksLikeCommand mb then
          Except.ok (db, { sent := [(dest sub, unknownCommandReply)] })
        else Except.ok (db, {})
      | some ParsedCommand.help =>
        Except.ok (db, { sent := [(dest sub, helpText)] })
      | some ParsedCommand.rooms => Except.ok (handleRooms db sub)
      | some ParsedCommand.summaryAll =>
        Except.ok (handleSummaryAll env.roomStep now today sub db)
      | some (ParsedCommand.summaryRoom arg) =>
        Except.ok (handleSummaryRoom env.roomStep now today sub arg db)
      | some ParsedCommand.todoAll => Except.ok (handleTodoAll db sub)
      | some (ParsedCommand.todoRoom arg) =>
        Except.ok (handleTodoRoom db sub arg)

/-- `MatrixService.get_active_subscribers`: active subscription, active
flag, non-null non-empty control room; newest first. -/
def getActiveSubscribers (db : DB) : List MSubscriber :=
  (db.subscribers.filter (fun s =>
    (db.subscriptions.any (fun x =>
      x.subscriberId == s.id && x.status == "active")) &&
    s.isActive &&
    (match s.matrixRoomId with
     | some r => r ≠ ""
     | none => false))).reverse

/-- The loop body of `run_once`: one subscriber inside its
`try`/`except`. -/
def subFoldStep (envs : Nat → SubEnv) (now today : Int)
    (acc : DB × Trace) (sub : MSubscriber) : DB × Trace :=
  match processSubscriber (envs sub.id) now today acc.1 sub with
  | Except.ok r =>
    (r.1, traceApp (traceApp acc.2 { attemptedSubs := [sub.id] }) r.2)
  | Except.error _ =>
    (acc.1, traceApp acc.2 { attemptedSubs := [sub.id] })

/-- `Command.run_once`: every active subscriber is processed inside its
own `try`/`except`; a raise only logs and moves on. -/
def runOnce (envs : Nat → SubEnv) (now today : Int) (db : DB) :
    DB × Trace :=
  (getActiveSubscribers db).foldl (subFoldStep envs now today)
    (db, ({} : Trace))

/-! ### Orchestrator lemmas and claim theorems -/

theorem runRoom_attemptedRooms (step : RoomStep) (now today : Int)
    (sub : MSubscriber) (room : MRoom) (db : DB) :
    (runRoom step now today sub room db).2.1.attemptedRooms = [room.id] := by
  cases step <;> rfl

theorem foldRooms_attempted (steps : Nat → RoomStep) (now today : Int)
    (sub : MSubscriber) (rooms : List MRoom) :
    ∀ acc : DB × Trace × Nat,
      ((rooms.foldl (roomFoldStep steps now today sub) acc).2.1).attemptedRooms =
        acc.2.1.attemptedRooms ++ rooms.map (fun r => r.id) := by
  induction rooms with
  | nil => intro acc; simp
  | cons room rest ih =>
    intro acc
    rw [List.foldl_cons, ih]
    have hstep : ((roomFoldStep steps now today sub acc room).2.1).attemptedRooms =
        acc.2.1.attemptedRooms ++ [room.id] := by
      unfold roomFoldStep
      simp [traceApp, runRoom_attemptedRooms]
    rw [hstep, List.map_cons, List.append_assoc]
    rfl

/-- Helper: `process_summaries` attempts every room of its target list,
whatever the per-room outcomes (every exception is caught inside the
loop). -/
theorem processSummaries_attemptedRooms (steps : Nat → RoomStep)
    (now today : Int) (sub : MSubscriber) (rooms : List MRoom) (db : DB) :
    (processSummaries steps now today sub rooms db).2.attemptedRooms =
      rooms.map (fun r => r.id) := by
  unfold processSummaries
  have h := foldRooms_attempted steps now today sub rooms (db, ({} : Trace), 0)
  by_cases hz :
      (rooms.foldl (roomFoldStep steps now today sub)
        (db, ({} : Trace), 0)).2.2 == 0
  · simp only [hz, if_true, traceApp]
    simpa using h
  · simp only [hz, if_false, Bool.false_eq_true]
    simpa using h

theorem subFold_mono (envs : Nat → SubEnv) (now today : Int)
    (subs : List MSubscriber) :
    ∀ (acc : DB × Trace) (a : Nat), a ∈ acc.2.attemptedSubs →
      a ∈ ((subs.foldl (subFoldStep envs now today) acc).2).attemptedSubs := by
  induction subs with
  | nil => intro acc a ha; exact ha
  | cons sub rest ih =>
    intro acc a ha
    rw [List.foldl_cons]
    refine ih _ a ?_
    unfold subFoldStep
    cases processSubscriber (envs sub.id) now today acc.1 sub with
    | ok r => simp [traceApp, ha]
    | error e => simp [traceApp, ha]

theorem subFold_attempts (envs : Nat → SubEnv) (now today : Int)
    (subs : List MSubscriber) :
    ∀ (acc : DB × Trace) (s : MSubscriber), s ∈ subs →
      s.id ∈ ((subs.foldl (subFoldStep envs now today) acc).2).attemptedSubs := by
  induction subs with
  | nil => intro acc s hs; simp at hs
  | cons sub rest ih =>
    intro acc s hs
    rw [List.foldl_cons]
    rcases List.mem_cons.mp hs with heq | hmem
    · subst heq
      refine subFold_mono envs now today rest _ s.id ?_
      unfold subFoldStep
      cases processSubscriber (envs s.id) now today acc.1 s with
      | ok r => simp [traceApp]
      | error e => simp [traceApp]
    · exact ih _ s hmem

/-- C2: failures are isolated.  First conjunct: for every per-subscriber
environment — including ones whose gateway call raises — `run_once`
still attempts every active subscriber of the cycle.  Second conjunct:
within one subscriber's summary run, `process_summaries` attempts every
room of the target list, whatever each room's outcome (build raise, LLM
raise, send raise, no messages, success). -/
theorem failures_isolated_per_subscriber_and_room :
    (∀ (envs : Nat → SubEnv) (now today : Int) (db : DB)
      (s : MSubscriber), s ∈ getActiveSubscribers db →
      s.id ∈ (runOnce envs now today db).2.attemptedSubs) ∧
    (∀ (steps : Nat → RoomStep) (now today : Int) (sub : MSubscriber)
      (rooms : List MRoom) (db : DB),
      (processSummaries steps now today sub rooms db).2.attemptedRooms =
        rooms.map (fun r => r.id)) := by
  constructor
  · intro envs now today db s hs
    unfold runOnce
    exact subFold_attempts envs now today (getActiveSubscribers db)
      (db, ({} : Trace)) s hs
  · intro steps now today sub rooms db
    exact processSummaries_attemptedRooms steps now today sub rooms db

def subW1 : MSubscriber :=
  { id := 1, matrixRoomId := some "!ctrl1:hs", isActive := true }

def subW2 : MSubscriber :=
  { id := 2, matrixRoomId := some "!ctrl2:hs", isActive := true }

def dbW : DB :=
  { subscribers := [subW1, subW2],
    subscriptions := [{ subscriberId := 1, status := "active" },
                      { subscriberId := 2, status := "active" }],
    rooms := [], summaries := [], states := [], todos := [],
    dailyCounts := [] }

def envsW : Nat → SubEnv :=
  fun _ => { lastMessage := Except.error "connection reset",
             roomStep := fun _ => RoomStep.buildRaises }

/-- Witness for `failures_isolated_per_subscriber_and_room`: two active
subscribers whose gateway calls both raise are both attempted, and a
run over two rooms whose LLM raises attempts both rooms. -/
theorem failures_isolated_witness :
    (subW2.id ∈ (runOnce envsW 0 0 dbW).2.attemptedSubs) ∧
    (processSummaries (fun _ => RoomStep.llmRaises) 0 0 subW1 [] dbW).2.attemptedRooms =
      ([] : List MRoom).map (fun r => r.id) :=
  ⟨failures_isolated_per_subscriber_and_room.1 envsW 0 0 dbW subW2
      (by decide),
   failures_isolated_per_subscriber_and_room.2
      (fun _ => RoomStep.llmRaises) 0 0 subW1 [] dbW⟩

/-- C1: the summary cooldown.  With at least one active room: (1) a
`summary all` issued less than 15 minutes after the most recently
delivered summary across the subscriber's rooms sends only the
remaining-minutes reply, creates no `RoomSummary` row, and processes no
room; (2) at or past 15 minutes it proceeds to processing every active
room; (3) with no delivered summary at all it also proceeds; (4)/(5)
the same gate governs `summary <alias>` for a resolvable alias. -/
theorem summary_cooldown_enforced (steps : Nat → RoomStep)
    (now today : Int) (db : DB) (sub : MSubscriber)
    (hrooms : activeRooms db sub.id ≠ []) :
    (∀ t, latestDeliveredAt db sub.id = some t →
      now - t < SUMMARY_COOLDOWN_MINUTES * 60 →
      (handleSummaryAll steps now today sub db).1.summaries =
        db.summaries ∧
      (handleSummaryAll steps now today sub db).2.sent =
        [(dest sub,
          waitMessage (SUMMARY_COOLDOWN_MINUTES - Int.tdiv (now - t) 60))] ∧
      (handleSummaryAll steps now today sub db).2.attemptedRooms = []) ∧
    (∀ t, latestDeliveredAt db sub.id = some t →
      SUMMARY_COOLDOWN_MINUTES * 60 ≤ now - t →
      (handleSummaryAll steps now today sub db).2.attemptedRooms =
        (activeRooms db sub.id).map (fun r => r.id)) ∧
    (latestDeliveredAt db sub.id = none →
      (handleSummaryAll steps now today sub db).2.attemptedRooms =
        (activeRooms db sub.id).map (fun r => r.id)) ∧
    (∀ (arg : List Char) (room : MRoom) (t : Int), arg ≠ [] →
      findRoomByCode db sub.id arg = some room →
      latestDeliveredAt db sub.id = some t →
      now - t < SUMMARY_COOLDOWN_MINUTES * 60 →
      (handleSummaryRoom steps now today sub arg db).1.summaries =
        db.summaries ∧
      (handleSummaryRoom steps now today sub arg db).2.attemptedRooms = []) ∧
    (∀ (arg : List Char) (room : MRoom), arg ≠ [] →
      findRoomByCode db sub.id arg = some room →
      (latestDeliveredAt db sub.id = none ∨
        ∃ t, latestDeliveredAt db sub.id = some t ∧
          SUMMARY_COOLDOWN_MINUTES * 60 ≤ now - t) →
      (handleSummaryRoom steps now today sub arg db).2.attemptedRooms =
        [room.id]) := by
  have hempty : (activeRooms db sub.id).isEmpty = false := by
    rw [List.isEmpty_eq_false]
    exact hrooms
  refine ⟨?_, ?_, ?_, ?_, ?_⟩
  · intro t ht hlt
    have hcd : checkSummaryCooldown now db sub =
        (false, [(dest sub,
          waitMessage (SUMMARY_COOLDOWN_MINUTES - Int.tdiv (now - t) 60))]) := by
      simp only [checkSummaryCooldown, ht]
      rw [if_pos hlt]
    simp [handleSummaryAll, hempty, hcd]
  · intro t ht hge
    have hcd : checkSummaryCooldown now db sub = (true, []) := by
      simp only [checkSummaryCooldown, ht]
      rw [if_neg (by omega)]
    simp [handleSummaryAll, hempty, hcd,
      processSummaries_attemptedRooms]
  · intro ht
    have hcd : checkSummaryCooldown now db sub = (true, []) := by
      simp only [checkSummaryCooldown, ht]
    simp [handleSummaryAll, hempty, hcd,
      processSummaries_attemptedRooms]
  · intro arg room t harg hfind ht hlt
    have hargE : arg.isEmpty = false := by
      rw [List.isEmpty_eq_false]
      exact harg
    have hcd : checkSummaryCooldown now db sub =
        (false, [(dest sub,
          waitMessage (SUMMARY_COOLDOWN_MINUTES - Int.tdiv (now - t) 60))]) := by
      simp only [checkSummaryCooldown, ht]
      rw [if_pos hlt]
    simp [handleSummaryRoom, hargE, hfind, hcd]
  · intro arg room harg hfind hok
    have hargE : arg.isEmpty = false := by
      rw [List.isEmpty_eq_false]
      exact harg
    have hcd : checkSummaryCooldown now db sub = (true, []) := by
      rcases hok with hnone | ⟨t, ht, hge⟩
      · simp only [checkSummaryCooldown, hnone]
      · simp only [checkSummaryCooldown, ht]
        rw [if_neg (by omega)]
    have := processSummaries_attemptedRooms steps now today sub [room] db
    simp only [List.map_cons, List.map_nil] at this
    simp [handleSummaryRoom, hargE, hfind, hcd, this]

def roomC1 : MRoom :=
  { id := 10, subscriberId := 1, roomId := "!watched:hs",
    roomCode := some "ab22", roomName := some "Team chat",
    platform := "whatsapp", isActive := true }

def dbC1 : DB :=
  { subscribers := [subW1],
    subscriptions := [{ subscriberId := 1, status := "active" }],
    rooms := [roomC1],
    summaries := [{ id := 1, roomId := 10, summary := "earlier",
                    reply := none, needsMoreInformation := false,
                    todoList := [], messageCount := 3,
                    sentAt := some 0 }],
    states := [], todos := [], dailyCounts := [] }

/-- Witness for `summary_cooldown_enforced`: a delivery at time 0, a
request at 60 seconds (cooling down: no new summary row, one wait
reply, no room processed) and a request at 1000 seconds (proceeds to
the single active room). -/
theorem summary_cooldown_enforced_witness :
    ((handleSummaryAll (fun _ => RoomStep.noMessages) 60 0 subW1 dbC1).1.summaries =
        dbC1.summaries ∧
      (handleSummaryAll (fun _ => RoomStep.noMessages) 60 0 subW1 dbC1).2.sent =
        [(dest subW1,
          waitMessage (SUMMARY_COOLDOWN_MINUTES - Int.tdiv (60 - 0) 60))] ∧
      (handleSummaryAll (fun _ => RoomStep.noMessages) 60 0 subW1 dbC1).2.attemptedRooms =
        []) ∧
    (handleSummaryAll (fun _ => RoomStep.noMessages) 1000 0 subW1 dbC1).2.attemptedRooms =
      (activeRooms dbC1 subW1.id).map (fun r => r.id) :=
  ⟨(summary_cooldown_enforced (fun _ => RoomStep.noMessages) 60 0 dbC1 subW1
      (by decide)).1 0 (by decide) (by decide),
   (summary_cooldown_enforced (fun _ => RoomStep.noMessages) 1000 0 dbC1 subW1
      (by decide)).2.1 0 (by decide) (by decide)⟩

def subC3 : MSubscriber :=
  { id := 1, matrixRoomId := some "!ctrl:hs", isActive := true }

def roomC3 : MRoom :=
  { id := 7, subscriberId := 1, roomId := "!watched:hs",
    roomCode := some "cd33", roomName := some "Team",
    platform := "whatsapp", isActive := true }

def dbC3 : DB :=
  { subscribers := [subC3],
    subscriptions := [{ subscriberId := 1, status := "active" }],
    rooms := [roomC3], summaries := [], states := [], todos := [],
    dailyCounts := [] }

/-- C3 (code bug): a room whose LLM/reconcile phase raises.  The
`except` clause of `process_summaries` only logs: the
`ConversationProcessingState` row keeps the `get_or_create` default
status `idle` and an empty failure reason, and no status value
`processing` or `failed` is ever written — the code does not implement
the claimed `idle → processing → failed` transition. -/
theorem processing_state_left_idle_on_llm_failure :
    (processSummaries (fun _ => RoomStep.llmRaises) 1000 20000 subC3
        [roomC3] dbC3).1.states =
      [{ roomId := 7, status := "idle", failureReason := "",
         lastMessageSyncedAt := none, lastSummarizedAt := none }] ∧
    (processSummaries (fun _ => RoomStep.llmRaises) 1000 20000 subC3
        [roomC3] dbC3).2.statusWrites = [(7, "idle")] ∧
    ((processSummaries (fun _ => RoomStep.llmRaises) 1000 20000 subC3
        [roomC3] dbC3).2.statusWrites.map Prod.snd).contains "processing" =
      false ∧
    ((processSummaries (fun _ => RoomStep.llmRaises) 1000 20000 subC3
        [roomC3] dbC3).2.statusWrites.map Prod.snd).contains "failed" =
      false := by
  refine ⟨by decide, by decide, by decide, by decide⟩

/-- C7: a control-room message from someone other than the bot that
matches none of the six command patterns draws exactly one guidance
reply when its first whitespace-separated token (after lowercasing and
trimming) is a recognized keyword, and no reply at all otherwise; the
database is untouched either way. -/
theorem router_guidance_or_silence (steps : Nat → RoomStep)
    (now today : Int) (db : DB) (sub : MSubscriber)
    (sender body : String) (hsender : sender ≠ FRIDAY_USER_ID)
    (hparse : parseCommand (pyStrip (pyLower body.data)) = none) :
    processSubscriber
      { lastMessage := Except.ok (some (sender, body)), roomStep := steps }
      now today db sub =
    Except.ok (db,
      if looksLikeCommand (pyStrip (pyLower body.data)) then
        { sent := [(dest sub, unknownCommandReply)] }
      else {}) := by
  have hs : (sender == FRIDAY_USER_ID) = false := by
    simp [hsender]
  cases hl : looksLikeCommand (pyStrip (pyLower body.data)) with
  | true => simp [processSubscriber, hs, hparse, hl]
  | false => simp [processSubscriber, hs, hparse, hl]

/-- Witness for `router_guidance_or_silence`: the bare word "summary"
matches no pattern but starts with a keyword, so it draws the guidance
reply; and on a second application, ordinary chat ("hello there")
draws nothing. -/
theorem router_guidance_or_silence_witness :
    (processSubscriber
      { lastMessage := Except.ok (some ("@user:hs", "summary")),
        roomStep := fun _ => RoomStep.buildRaises }
      0 0 dbC3 subC3 =
    Except.ok (dbC3,
      if looksLikeCommand (pyStrip (pyLower ("summary").data)) then
        { sent := [(dest subC3, unknownCommandReply)] }
      else {})) ∧
    (processSubscriber
      { lastMessage := Except.ok (some ("@user:hs", "hello there")),
        roomStep := fun _ => RoomStep.buildRaises }
      0 0 dbC3 subC3 =
    Except.ok (dbC3,
      if looksLikeCommand (pyStrip (pyLower ("hello there").data)) then
        { sent := [(dest subC3, unknownCommandReply)] }
      else {})) :=
  ⟨router_guidance_or_silence (fun _ => RoomStep.buildRaises) 0 0 dbC3 subC3
      "@user:hs" "summary" (by decide) (by decide),
   router_guidance_or_silence (fun _ => RoomStep.buildRaises) 0 0 dbC3 subC3
      "@user:hs" "hello there" (by decide) (by decide)⟩

end Friday
